import Mathlib

/-!
# The /upload route of index.js

A shallow embedding of the one route of the server: the multer disk storage
that precedes the handler, the handler itself, and the callback it hands to
`child_process.exec`.  The platform calls the handler makes (`path.join`,
`exec`, `fs.unlinkSync`, `JSON.parse`, `res.status(..).json(..)`) appear as
explicit models or as parameters of the environment; the filesystem is the
list of the paths that exist; what the handler does is recorded as a list of
events in the order in which it happens.

The handler calls `exec` and returns; the callback runs when the subprocess
has exited.  One run of the model is the handler followed by its callback.
An exception thrown inside the callback has no handler in this program: it is
recorded as the last event of the run, and nothing of the callback after the
throwing call is executed.
-/

namespace ApkUpload

/-! ## Values and responses -/

/-- JSON documents: what `res.json` puts on the wire.  A number is the decimal
`mantissa * 10 ^ exponent`. -/
inductive JsonValue where
  | null
  | bool (b : Bool)
  | num (mantissa : Int) (exponent : Int)
  | str (s : String)
  | arr (items : List JsonValue)
  | obj (fields : List (String × JsonValue))

/-- The numbers `JSON.parse` can return: a finite double, named by the decimal
that `JSON.stringify` prints for it, or an infinity (the text `1e400` parses
to `Infinity`). -/
inductive JsNumber where
  | finite (mantissa : Int) (exponent : Int)
  | infinity (negative : Bool)

/-- The JavaScript values `JSON.parse` can return; an object is the list of
its own properties in enumeration order. -/
inductive JsValue where
  | null
  | bool (b : Bool)
  | number (n : JsNumber)
  | string (s : String)
  | array (items : List JsValue)
  | object (fields : List (String × JsValue))

mutual
/-- What `JSON.stringify` makes of a value that `JSON.parse` returned: the
same document, with `null` in the place of every number that is not finite. -/
def jsonStringify : JsValue → JsonValue
  | .null => .null
  | .bool b => .bool b
  | .number (.finite mantissa exponent) => .num mantissa exponent
  | .number (.infinity _) => .null
  | .string s => .str s
  | .array items => .arr (jsonStringifyItems items)
  | .object fields => .obj (jsonStringifyFields fields)
/-- The elements of an array, each through `jsonStringify`. -/
def jsonStringifyItems : List JsValue → List JsonValue
  | [] => []
  | v :: vs => jsonStringify v :: jsonStringifyItems vs
/-- The properties of an object, each value through `jsonStringify`. -/
def jsonStringifyFields : List (String × JsValue) → List (String × JsonValue)
  | [] => []
  | (key, v) :: rest => (key, jsonStringify v) :: jsonStringifyFields rest
end

/-- One HTTP response: the status set by `res.status` (200 when it is not
called) and the document that `res.json` sends. -/
structure Response where
  status : Nat
  body : JsonValue

/-- The object literal `{ error: msg }`. -/
def errorBody (msg : String) : JsonValue :=
  .obj [("error", .str msg)]

/-- The JavaScript `a || b` on strings: the empty string is the only falsy one. -/
def jsOr (a b : String) : String :=
  if a = "" then b else a

/-! ## Paths (Node's posix `path` module) -/

namespace Path

/-- The pieces of a path between its `/` separators (`"a//b"` has an empty one). -/
def segments : List Char → List (List Char)
  | [] => [[]]
  | c :: cs =>
    match segments cs with
    | [] => [[]]
    | s :: rest => if c = '/' then [] :: s :: rest else (c :: s) :: rest

/-- The loop of `normalizeString`: `acc` holds the kept segments, last one
first.  Empty segments and `.` are dropped; `..` removes the last kept segment
unless there is none or it is itself `..`, in which case it is kept when
`allowAboveRoot` and dropped otherwise. -/
def normalizeSegments (allowAboveRoot : Bool) : List (List Char) → List (List Char) → List (List Char)
  | acc, [] => acc.reverse
  | acc, seg :: rest =>
    if seg = [] ∨ seg = ['.'] then normalizeSegments allowAboveRoot acc rest
    else if seg = ['.', '.'] then
      match acc with
      | last :: before =>
        if last = ['.', '.'] then
          normalizeSegments allowAboveRoot (if allowAboveRoot then seg :: acc else acc) rest
        else normalizeSegments allowAboveRoot before rest
      | [] => normalizeSegments allowAboveRoot (if allowAboveRoot then [seg] else []) rest
    else normalizeSegments allowAboveRoot (seg :: acc) rest

/-- The text of `normalizeString(path, allowAboveRoot)`. -/
def normalizeString (path : List Char) (allowAboveRoot : Bool) : List Char :=
  List.intercalate ['/'] (normalizeSegments allowAboveRoot [] (segments path))

/-- The function `path.normalize`. -/
def normalize (path : String) : String :=
  if path.data = [] then "."
  else
    let isAbsolute := path.data.head? = some '/'
    let trailingSeparator := path.data.getLast? = some '/'
    let body := normalizeString path.data (!isAbsolute)
    if body = [] then
      if isAbsolute then "/" else if trailingSeparator then "./" else "."
    else
      let body := if trailingSeparator then body ++ ['/'] else body
      String.mk (if isAbsolute then '/' :: body else body)

/-- The function `path.join` on two arguments: the non-empty ones are glued
with `/` and the result is normalized. -/
def join (a b : String) : String :=
  if a = "" then (if b = "" then "." else normalize b)
  else if b = "" then normalize a
  else normalize (a ++ "/" ++ b)

/-- The function `path.resolve` on one argument, with `cwd` the working
directory of the process: the absolute path that a relative `path` names.
Empty pieces are skipped, and `cwd` is read only when `path` is relative. -/
def resolve (cwd path : String) : String :=
  let fromPath := if path = "" then [] else path.data ++ ['/']
  let joined :=
    if path.data.head? = some '/' then fromPath
    else if cwd = "" then fromPath
    else cwd.data ++ ['/'] ++ fromPath
  let isAbsolute := joined.head? = some '/'
  let body := normalizeString joined (!isAbsolute)
  if isAbsolute then String.mk ('/' :: body)
  else if body = [] then "." else String.mk body

end Path

/-! ## The filesystem -/

namespace Fs

/-- The call `fs.unlinkSync(path)` on the filesystem `files`: it removes the
entry, and throws (`ENOENT`) when there is none.  Other causes of failure
(permissions, a directory at that path) are not modelled. -/
def unlinkSync (path : String) (files : List String) : Except String (List String) :=
  if path ∈ files then .ok (files.filter (fun p => p != path))
  else .error ("ENOENT: no such file or directory, unlink \x27" ++ path ++ "\x27")

end Fs

/-! ## The upload middleware and the request -/

/-- The object `req.file` that multer leaves for the handler. -/
structure UploadedFile where
  path : String

/-- The part of the request the handler reads: `req.file`, absent when the
body had no file part. -/
structure Request where
  file : Option UploadedFile

/-- The destination of `multer({ dest: "uploads/" })`. -/
def uploadDest : String := "uploads/"

/-- The middleware `upload.single("apk")` with multer's disk storage.  `part`
is the name multer drew for the file part, or `none` when the body has no such
part.  The bytes go to `path.join(dest, name)`, which the operating system
takes relative to the working directory `cwd`; `req.file.path` is that
relative path. -/
def uploadSingle (cwd : String) (part : Option String) (files : List String) :
    Request × List String :=
  match part with
  | none => ({ file := none }, files)
  | some name =>
    let finalPath := Path.join uploadDest name
    ({ file := some { path := finalPath } }, Path.resolve cwd finalPath :: files)

/-! ## The subprocess -/

/-- What `exec` hands to its callback, and the filesystem the subprocess
leaves behind.  `error` says that the callback's first argument is not null:
the command exited nonzero, was killed, or could not be started. -/
structure ExecResult where
  error : Bool
  stdout : String
  stderr : String
  files : List String

/-- What the handler does not define itself. -/
structure Env where
  /-- The directory of index.js. -/
  dirname : String
  /-- The working directory of the server process. -/
  cwd : String
  /-- The outcome of `exec(command, callback)` started on a filesystem. -/
  exec : String → List String → ExecResult
  /-- The function `JSON.parse`; `none` when it throws. -/
  parse : String → Option JsValue
  /-- The serialisation inside `res.json(result)`: the document that is sent;
  `none` when the call throws before anything is sent. -/
  stringify : JsValue → Option JsonValue

/-- The template literal given to `exec`. -/
def scanCommand (apkPath : String) : String :=
  "python3 apk_scanner.py " ++ apkPath

/-- The constant `apkPath` of the handler: `path.join(__dirname, req.file.path)`. -/
def apkPath (env : Env) (file : UploadedFile) : String :=
  Path.join env.dirname file.path

/-- What the subprocess started for `file` on the filesystem `files` gives back. -/
def scanResult (env : Env) (file : UploadedFile) (files : List String) : ExecResult :=
  env.exec (scanCommand (apkPath env file)) files

/-! ## The shell -/

namespace Shell

/-- The characters that separate the words of a command. -/
def isBlank (c : Char) : Bool :=
  c = ' ' || c = '\t'

/-- The characters that stand for themselves wherever they are in a command. -/
def isPlain (c : Char) : Bool :=
  c.isAlphanum || c = '/' || c = '.' || c = '_' || c = '-'

/-- The maximal runs of non-blank characters; `cur` is the run being read,
last character first. -/
def fields : List Char → List Char → List String
  | cur, [] => if cur = [] then [] else [String.mk cur.reverse]
  | cur, c :: cs =>
    if isBlank c then
      if cur = [] then fields [] cs else String.mk cur.reverse :: fields [] cs
    else fields (c :: cur) cs

/-- The argument vector that `/bin/sh -c command` starts, for a command made
of plain characters and blanks only.  Quoting, expansions and operators are
outside this model: a command with any other character gets no answer. -/
def words (command : String) : Option (List String) :=
  if command.data.all (fun c => isBlank c || isPlain c) then some (fields [] command.data)
  else none

end Shell

/-! ## The handler -/

/-- What the handler does that can be seen from outside, one entry per effect. -/
inductive Event where
  | launched (command : String)
  | exited (error : Bool) (stdout stderr : String)
  | unlink (path : String) (removed : Bool)
  | uncaughtException (message : String)
  | responded (response : Response)

/-- The events of one run, oldest first, and the filesystem at its end. -/
structure Run where
  events : List Event
  files : List String

/-- The `try` block of the callback and its `catch`: `JSON.parse(stdout)`,
then `res.json(result)`; an exception of either is answered with status 500
and the fixed message. -/
def parseAndSend (env : Env) (stdout : String) : Response :=
  match env.parse stdout with
  | some result =>
    match env.stringify result with
    | some body => ⟨200, body⟩
    | none => ⟨500, errorBody "Invalid JSON output from Python script"⟩
  | none => ⟨500, errorBody "Invalid JSON output from Python script"⟩

/-- The callback given to `exec`, run on the result `r` of the subprocess.  An
exception of `fs.unlinkSync` is caught nowhere: it leaves the callback. -/
def execCallback (env : Env) (apkPath : String) (r : ExecResult) : Run :=
  match Fs.unlinkSync apkPath r.files with
  | .error e => { events := [.unlink apkPath false, .uncaughtException e], files := r.files }
  | .ok files =>
    if r.error then
      { events := [.unlink apkPath true,
          .responded ⟨500, errorBody (jsOr r.stderr "Error executing script")⟩],
        files := files }
    else
      { events := [.unlink apkPath true, .responded (parseAndSend env r.stdout)],
        files := files }

/-- The handler of `app.post("/upload", ...)` on a request that multer has
processed, followed by the callback once the subprocess has exited. -/
def postUpload (env : Env) (req : Request) (files : List String) : Run :=
  match req.file with
  | none => { events := [.responded ⟨400, errorBody "No file uploaded"⟩], files := files }
  | some file =>
    let r := scanResult env file files
    let done := execCallback env (apkPath env file) r
    { events :=
        .launched (scanCommand (apkPath env file)) :: .exited r.error r.stdout r.stderr ::
          done.events,
      files := done.files }

/-- The whole route: the upload middleware, then the handler. -/
def route (env : Env) (part : Option String) (files : List String) : Run :=
  postUpload env (uploadSingle env.cwd part files).1 (uploadSingle env.cwd part files).2

/-- The responses sent during a run, oldest first. -/
def responses : List Event → List Response
  | [] => []
  | .responded r :: rest => r :: responses rest
  | _ :: rest => responses rest

/-! ## Varying what the analyzer wrote -/

/-- The environment `env` with the standard output of every subprocess
replaced by `text`; nothing else changes. -/
def withStdout (env : Env) (text : String) : Env :=
  { env with exec := fun command files => { env.exec command files with stdout := text } }

/-- The environment `env` with the standard error of every subprocess
replaced by `text`; nothing else changes. -/
def withStderr (env : Env) (text : String) : Env :=
  { env with exec := fun command files => { env.exec command files with stderr := text } }

/-! ## Concrete runs -/

/-- The text `{"status":"clean"}`. -/
def cleanText : String := "\x7b\"status\":\"clean\"\x7d"

/-- The value that `JSON.parse` returns for the text `cleanText`. -/
def cleanReport : JsValue := .object [("status", .string "clean")]

/-- A stand-in for `JSON.parse` in the concrete runs: it reads the three
texts that occur there as JSON, `cleanText`, `null` and `1e400`, and throws on
the others. -/
def sampleParse (text : String) : Option JsValue :=
  if text = cleanText then some cleanReport
  else if text = "null" then some .null
  else if text = "1e400" then some (.number (.infinity false))
  else none

/-- A subprocess that ends with the given error flag and output, and leaves
the filesystem as it found it. -/
def answers (error : Bool) (stdout stderr : String) : String → List String → ExecResult :=
  fun _ files => { error := error, stdout := stdout, stderr := stderr, files := files }

/-- A server started in the directory of index.js. -/
def homeEnv (exec : String → List String → ExecResult) : Env :=
  { dirname := "/srv/app", cwd := "/srv/app", exec := exec, parse := sampleParse,
    stringify := fun v => some (jsonStringify v) }

/-- A server started from the parent directory, as `node src/index.js`. -/
def strayEnv (exec : String → List String → ExecResult) : Env :=
  { dirname := "/srv/app/src", cwd := "/srv/app", exec := exec, parse := sampleParse,
    stringify := fun v => some (jsonStringify v) }

/-- A server installed in a directory whose name has a blank, started there. -/
def spacedEnv (exec : String → List String → ExecResult) : Env :=
  { dirname := "/srv/apk scanner", cwd := "/srv/apk scanner", exec := exec,
    parse := sampleParse, stringify := fun v => some (jsonStringify v) }

/-- The `req.file` of an upload that multer named `ab12`. -/
def sampleFile : UploadedFile := { path := "uploads/ab12" }


/-! ## The branches of the handler -/

/-- When `fs.unlinkSync` finds the file, the callback's events are the
deletion and one response, chosen by the error flag and by the `try` block. -/
theorem execCallback_of_mem (env : Env) (path : String) (r : ExecResult)
    (h : path ∈ r.files) :
    (execCallback env path r).events =
      [.unlink path true,
        .responded
          (if r.error then ⟨500, errorBody (jsOr r.stderr "Error executing script")⟩
           else parseAndSend env r.stdout)] := by
  unfold execCallback Fs.unlinkSync
  rw [if_pos h]
  cases r.error <;> simp

/-- When `fs.unlinkSync` does not find the file, the callback stops at the
exception: nothing is sent and the filesystem is as the subprocess left it. -/
theorem execCallback_of_not_mem (env : Env) (path : String) (r : ExecResult)
    (h : path ∉ r.files) :
    execCallback env path r =
      { events := [.unlink path false,
          .uncaughtException
            ("ENOENT: no such file or directory, unlink \x27" ++ path ++ "\x27")],
        files := r.files } := by
  unfold execCallback Fs.unlinkSync
  rw [if_neg h]

/-- The events of a run on a request with a file part. -/
theorem postUpload_events_of_file (env : Env) (file : UploadedFile) (files : List String) :
    (postUpload env { file := some file } files).events =
      .launched (scanCommand (apkPath env file)) ::
        .exited (scanResult env file files).error (scanResult env file files).stdout
          (scanResult env file files).stderr ::
        (execCallback env (apkPath env file) (scanResult env file files)).events := rfl

/-- The responses of a run on a request with a file part are those of the
callback. -/
theorem responses_postUpload_of_file (env : Env) (file : UploadedFile) (files : List String) :
    responses (postUpload env { file := some file } files).events =
      responses (execCallback env (apkPath env file) (scanResult env file files)).events := rfl

/-! ## Runs on which the deletion succeeds -/

/-- On a run whose deletion finds the file: an analyzer that ended without
error and whose output `JSON.parse` reads as `v` is answered once, with status
200 and the document that `res.json` makes of `v`. -/
theorem valid_output_passthrough (env : Env) (file : UploadedFile) (files : List String)
    (v : JsValue) (body : JsonValue)
    (hdel : apkPath env file ∈ (scanResult env file files).files)
    (hok : (scanResult env file files).error = false)
    (hparse : env.parse (scanResult env file files).stdout = some v)
    (hsend : env.stringify v = some body) :
    responses (postUpload env { file := some file } files).events = [⟨200, body⟩] := by
  rw [postUpload_events_of_file, execCallback_of_mem env _ _ hdel, hok]
  simp [parseAndSend, hparse, hsend, responses]

/-- On a run whose deletion finds the file: a failed analyzer is answered
once, with status 500 and the standard-error text, or the fixed message when
that text is empty. -/
theorem failed_analyzer_response (env : Env) (file : UploadedFile) (files : List String)
    (hdel : apkPath env file ∈ (scanResult env file files).files)
    (herr : (scanResult env file files).error = true) :
    responses (postUpload env { file := some file } files).events =
      [⟨500, .obj [("error", .str
        (if (scanResult env file files).stderr = "" then "Error executing script"
         else (scanResult env file files).stderr))]⟩] := by
  rw [postUpload_events_of_file, execCallback_of_mem env _ _ hdel, herr]
  rfl

/-- On a run whose deletion finds the file: an analyzer that ended without
error and whose output `JSON.parse` rejects is answered once, with status 500
and the fixed message. -/
theorem garbled_output_response (env : Env) (file : UploadedFile) (files : List String)
    (hdel : apkPath env file ∈ (scanResult env file files).files)
    (hok : (scanResult env file files).error = false)
    (hparse : env.parse (scanResult env file files).stdout = none) :
    responses (postUpload env { file := some file } files).events =
      [⟨500, .obj [("error", .str "Invalid JSON output from Python script")]⟩] := by
  rw [postUpload_events_of_file, execCallback_of_mem env _ _ hdel, hok]
  simp [parseAndSend, hparse, responses, errorBody]

/-- The start of every run on a request with a file part: the launch, the
exit, and one call of `fs.unlinkSync` on the path built from `__dirname`.  What
follows is one response when the call found the file, and the exception
otherwise. -/
theorem effects_in_order (env : Env) (file : UploadedFile) (files : List String) :
    ∃ rest,
      (postUpload env { file := some file } files).events =
        .launched (scanCommand (apkPath env file)) ::
          .exited (scanResult env file files).error (scanResult env file files).stdout
            (scanResult env file files).stderr ::
          .unlink (apkPath env file) (decide (apkPath env file ∈ (scanResult env file files).files)) ::
          rest ∧
      (apkPath env file ∈ (scanResult env file files).files → ∃ resp, rest = [.responded resp]) ∧
      (apkPath env file ∉ (scanResult env file files).files →
        ∃ message, rest = [.uncaughtException message]) := by
  by_cases h : apkPath env file ∈ (scanResult env file files).files
  · obtain ⟨resp, hresp⟩ : ∃ resp,
        (execCallback env (apkPath env file) (scanResult env file files)).events =
          [.unlink (apkPath env file) true, .responded resp] :=
      ⟨_, execCallback_of_mem env _ _ h⟩
    refine ⟨[.responded resp], ?_, fun _ => ⟨resp, rfl⟩, fun hn => absurd h hn⟩
    rw [postUpload_events_of_file, hresp, decide_eq_true h]
  · refine ⟨[.uncaughtException
        ("ENOENT: no such file or directory, unlink \x27" ++ apkPath env file ++ "\x27")], ?_,
      fun hmem => absurd hmem h, fun _ => ⟨_, rfl⟩⟩
    rw [postUpload_events_of_file, execCallback_of_not_mem env _ _ h, decide_eq_false h]

/-- The document sent is the serialisation of the parsed value, not the text
the analyzer printed: the output `1e400` parses to `Infinity` and is answered
with status 200 and the body `null`. -/
theorem overflowing_number_sent_as_null :
    responses (postUpload (homeEnv (answers false "1e400" "")) { file := some sampleFile }
      ["/srv/app/uploads/ab12"]).events = [⟨200, .null⟩] := rfl

/-! ## Valid output -/

/-- C1: a run on which the claim fails.  A server started from the parent
directory stores the upload under `/srv/app/uploads` and deletes under
`/srv/app/src/uploads`.  The analyzer ends without error and prints
`{"status":"clean"}`, which parses, yet `fs.unlinkSync` throws before the
`try` block and no response is sent; the claim says the response is status 200
with the parsed value, which is what the same outcome gets when the server is
started in its own directory. -/
theorem valid_output_without_response :
    uploadSingle "/srv/app" (some "ab12") [] =
        ({ file := some sampleFile }, ["/srv/app/uploads/ab12"]) ∧
      (scanResult (strayEnv (answers false cleanText "")) sampleFile
          ["/srv/app/uploads/ab12"]).error = false ∧
      (strayEnv (answers false cleanText "")).parse
          (scanResult (strayEnv (answers false cleanText "")) sampleFile
            ["/srv/app/uploads/ab12"]).stdout = some cleanReport ∧
      responses (postUpload (strayEnv (answers false cleanText ""))
          { file := some sampleFile } ["/srv/app/uploads/ab12"]).events = [] ∧
      responses (postUpload (homeEnv (answers false cleanText ""))
          { file := some sampleFile } ["/srv/app/uploads/ab12"]).events =
        [⟨200, .obj [("status", .str "clean")]⟩] :=
  ⟨rfl, rfl, rfl, rfl, rfl⟩

/-! ## A failed analyzer -/

/-- C2: a run on which the claim fails.  On a server started from the parent
directory the analyzer exits nonzero with `boom` on standard error;
`fs.unlinkSync` throws before the `if (error)` branch and no response is sent.
The claim says the response is status 500 with `{"error":"boom"}`, which is
what the same outcome gets when the server is started in its own directory. -/
theorem failed_analyzer_without_response :
    (scanResult (strayEnv (answers true "" "boom")) sampleFile
        ["/srv/app/uploads/ab12"]).error = true ∧
      (scanResult (strayEnv (answers true "" "boom")) sampleFile
        ["/srv/app/uploads/ab12"]).stderr = "boom" ∧
      responses (postUpload (strayEnv (answers true "" "boom"))
          { file := some sampleFile } ["/srv/app/uploads/ab12"]).events = [] ∧
      responses (postUpload (homeEnv (answers true "" "boom"))
          { file := some sampleFile } ["/srv/app/uploads/ab12"]).events =
        [⟨500, .obj [("error", .str "boom")]⟩] :=
  ⟨rfl, rfl, rfl, rfl⟩

/-! ## Output that is not JSON -/

/-- C3: a run on which the claim fails.  On a server started from the parent
directory the analyzer ends without error and prints `not json`, which does
not parse; `fs.unlinkSync` throws before the `try` block and no response is
sent.  The claim says the response is status 500 with the fixed message, which
is what the same outcome gets when the server is started in its own
directory. -/
theorem garbled_output_without_response :
    (scanResult (strayEnv (answers false "not json" "")) sampleFile
        ["/srv/app/uploads/ab12"]).error = false ∧
      (strayEnv (answers false "not json" "")).parse
          (scanResult (strayEnv (answers false "not json" "")) sampleFile
            ["/srv/app/uploads/ab12"]).stdout = none ∧
      responses (postUpload (strayEnv (answers false "not json" ""))
          { file := some sampleFile } ["/srv/app/uploads/ab12"]).events = [] ∧
      responses (postUpload (homeEnv (answers false "not json" ""))
          { file := some sampleFile } ["/srv/app/uploads/ab12"]).events =
        [⟨500, .obj [("error", .str "Invalid JSON output from Python script")]⟩] :=
  ⟨rfl, rfl, rfl, rfl⟩

/-! ## No file part -/

/-- C4: on a request without a file part the handler sends status 400 with the
body `{"error":"No file uploaded"}` and does nothing else: its only event is
that response (no subprocess is launched, `fs.unlinkSync` is not called) and
the filesystem is untouched.  The same holds for the whole route when the
body has no file part. -/
theorem missing_upload_rejected (env : Env) (files : List String) :
    postUpload env { file := none } files =
        { events := [.responded ⟨400, .obj [("error", .str "No file uploaded")]⟩],
          files := files } ∧
      route env none files =
        { events := [.responded ⟨400, .obj [("error", .str "No file uploaded")]⟩],
          files := files } :=
  ⟨rfl, rfl⟩

/-! ## The scratch file -/

/-- The path given to `fs.unlinkSync` does not exist once the callback is over. -/
theorem execCallback_files_not_mem (env : Env) (path : String) (r : ExecResult) :
    path ∉ (execCallback env path r).files := by
  by_cases h : path ∈ r.files
  · unfold execCallback Fs.unlinkSync
    rw [if_pos h]
    cases r.error
    · simp
    · simp
  · rw [execCallback_of_not_mem env path r h]
    exact h

/-- When the path the handler builds from `__dirname` is the path at which
multer stored the upload, the scratch file does not exist at the end of the
run, whatever the analyzer did. -/
theorem scratch_file_removed_of_same_path (env : Env) (name : String) (files : List String)
    (h : Path.resolve env.cwd (Path.join uploadDest name) =
      apkPath env { path := Path.join uploadDest name }) :
    Path.resolve env.cwd (Path.join uploadDest name) ∉ (route env (some name) files).files := by
  rw [h]
  exact execCallback_files_not_mem env _ _

/-- C5: a server started from the parent directory (`node src/index.js` in
`/srv/app`).  Multer stores the upload at `/srv/app/uploads/ab12`; the handler
deletes `/srv/app/src/uploads/ab12`, which is another path; `fs.unlinkSync`
throws, and at the end of the run the scratch file is still there. -/
theorem scratch_file_left_behind :
    (uploadSingle "/srv/app" (some "ab12") []).2 = ["/srv/app/uploads/ab12"] ∧
      apkPath (strayEnv (answers false cleanText "")) sampleFile =
        "/srv/app/src/uploads/ab12" ∧
      (route (strayEnv (answers false cleanText "")) (some "ab12") []).events =
        [.launched "python3 apk_scanner.py /srv/app/src/uploads/ab12",
          .exited false cleanText "",
          .unlink "/srv/app/src/uploads/ab12" false,
          .uncaughtException
            "ENOENT: no such file or directory, unlink \x27/srv/app/src/uploads/ab12\x27"] ∧
      (route (strayEnv (answers false cleanText "")) (some "ab12") []).files =
        ["/srv/app/uploads/ab12"] :=
  ⟨rfl, rfl, rfl, rfl⟩

/-! ## The command line -/

/-- A plain character is not a blank. -/
theorem Shell.not_blank_of_plain (c : Char) (h : Shell.isPlain c = true) :
    Shell.isBlank c = false := by
  by_contra hb
  have hc : c = ' ' ∨ c = '\t' := by
    by_cases hs : c = ' '
    · exact Or.inl hs
    · right
      simpa [Shell.isBlank, hs] using hb
  rcases hc with rfl | rfl <;> revert h <;> decide

/-- A text without blanks is one field. -/
theorem Shell.fields_of_no_blank (text cur : List Char)
    (h : ∀ c ∈ text, Shell.isBlank c = false) (hne : cur.reverse ++ text ≠ []) :
    Shell.fields cur text = [String.mk (cur.reverse ++ text)] := by
  induction text generalizing cur with
  | nil =>
    have hcur : cur ≠ [] := by
      intro hc
      apply hne
      simp [hc]
    simp [Shell.fields, hcur]
  | cons c cs ih =>
    have hc : Shell.isBlank c = false := h c (List.mem_cons_self c cs)
    have hcs : ∀ d ∈ cs, Shell.isBlank d = false := fun d hd => h d (List.mem_cons_of_mem c hd)
    have step := ih (c :: cur) hcs (by simp)
    simp only [Shell.fields, hc]
    simpa using step

/-- For a scratch path made of plain characters only, the command splits into
the executable, the script and the path. -/
theorem Shell.words_scanCommand_of_plain (path : String) (hne : path ≠ "")
    (h : ∀ c ∈ path.data, Shell.isPlain c = true) :
    Shell.words (scanCommand path) = some ["python3", "apk_scanner.py", path] := by
  have hdata : (scanCommand path).data =
      ['p', 'y', 't', 'h', 'o', 'n', '3', ' ',
        'a', 'p', 'k', '_', 's', 'c', 'a', 'n', 'n', 'e', 'r', '.', 'p', 'y', ' '] ++ path.data := by
    unfold scanCommand
    rw [String.data_append]
  have hall : (scanCommand path).data.all (fun c => Shell.isBlank c || Shell.isPlain c) = true := by
    rw [hdata, List.all_append, Bool.and_eq_true]
    refine ⟨by decide, ?_⟩
    rw [List.all_eq_true]
    intro c hc
    simp [h c hc]
  have hpath : path.data ≠ [] := by
    intro hnil
    apply hne
    exact String.ext hnil
  have hfield := Shell.fields_of_no_blank path.data []
    (fun c hc => Shell.not_blank_of_plain c (h c hc)) (by simpa using hpath)
  unfold Shell.words
  rw [if_pos hall, hdata]
  simp only [List.cons_append, List.nil_append, Shell.fields]
  simp [Shell.isBlank, hfield]

/-- C6: a server installed in `/srv/apk scanner`.  The scratch path is
`/srv/apk scanner/uploads/ab12`; the command the handler launches holds it
unquoted, and the shell splits it into four words, so that the analyzer gets
the two arguments `/srv/apk` and `scanner/uploads/ab12`, neither of which is
the scratch path. -/
theorem scan_command_splits_blank_path :
    apkPath (spacedEnv (answers false cleanText "")) sampleFile =
        "/srv/apk scanner/uploads/ab12" ∧
      (postUpload (spacedEnv (answers false cleanText "")) { file := some sampleFile }
          ["/srv/apk scanner/uploads/ab12"]).events.head? =
        some (.launched "python3 apk_scanner.py /srv/apk scanner/uploads/ab12") ∧
      Shell.words (scanCommand (apkPath (spacedEnv (answers false cleanText "")) sampleFile)) =
        some ["python3", "apk_scanner.py", "/srv/apk", "scanner/uploads/ab12"] :=
  ⟨rfl, rfl, rfl⟩

/-! ## The order of the effects -/

/-- C7: a run on which the claim fails.  On a server started from the parent
directory the effects are the launch, the exit, the call of `fs.unlinkSync`,
which throws without deleting anything, and the exception: the scratch file is
never deleted and no response is sent.  The claim says launch, exit, deletion,
response, which is what the same outcome gets when the server is started in
its own directory. -/
theorem effects_without_response :
    (postUpload (strayEnv (answers false "null" "")) { file := some sampleFile }
        ["/srv/app/uploads/ab12"]).events =
        [.launched "python3 apk_scanner.py /srv/app/src/uploads/ab12",
          .exited false "null" "",
          .unlink "/srv/app/src/uploads/ab12" false,
          .uncaughtException
            "ENOENT: no such file or directory, unlink \x27/srv/app/src/uploads/ab12\x27"] ∧
      (postUpload (strayEnv (answers false "null" "")) { file := some sampleFile }
        ["/srv/app/uploads/ab12"]).files = ["/srv/app/uploads/ab12"] ∧
      (postUpload (homeEnv (answers false "null" "")) { file := some sampleFile }
        ["/srv/app/uploads/ab12"]).events =
        [.launched "python3 apk_scanner.py /srv/app/uploads/ab12",
          .exited false "null" "",
          .unlink "/srv/app/uploads/ab12" true,
          .responded ⟨200, .null⟩] ∧
      (postUpload (homeEnv (answers false "null" "")) { file := some sampleFile }
        ["/srv/app/uploads/ab12"]).files = [] :=
  ⟨rfl, rfl, rfl, rfl⟩

/-! ## The shapes of the response -/

/-- C8: a run on which the claim fails.  On a server started from the parent
directory the request has a file part and the analyzer fails, yet the request
gets no response at all; the claim says it gets exactly one, with status 500,
which is what the same outcome gets when the server is started in its own
directory. -/
theorem failed_upload_gets_no_response :
    (scanResult (strayEnv (answers true "" "")) sampleFile ["/srv/app/uploads/ab12"]).error =
        true ∧
      responses (postUpload (strayEnv (answers true "" "")) { file := some sampleFile }
        ["/srv/app/uploads/ab12"]).events = [] ∧
      responses (postUpload (homeEnv (answers true "" "")) { file := some sampleFile }
        ["/srv/app/uploads/ab12"]).events =
        [⟨500, .obj [("error", .str "Error executing script")]⟩] :=
  ⟨rfl, rfl, rfl⟩

/-- On a request without a file part, or whose deletion finds the file,
exactly one response is sent.  Its status is 400 exactly when there is no file
part, 200 exactly when there is one, the analyzer did not fail and the `try`
block went through, and 500 in the other cases; every response whose status
is not 200 is an object with the single string field `error`. -/
theorem response_shapes (env : Env) (req : Request) (files : List String)
    (hdel : ∀ file, req.file = some file →
      apkPath env file ∈ (scanResult env file files).files) :
    ∃ resp, responses (postUpload env req files).events = [resp] ∧
      (resp.status = 400 ∨ resp.status = 500 ∨ resp.status = 200) ∧
      (resp.status = 400 ↔ req.file = none) ∧
      (resp.status = 200 ↔ ∃ file, req.file = some file ∧
        (scanResult env file files).error = false ∧
          ∃ v, env.parse (scanResult env file files).stdout = some v ∧
            env.stringify v = some resp.body) ∧
      (resp.status ≠ 200 → ∃ msg, resp.body = .obj [("error", .str msg)]) := by
  obtain ⟨file⟩ := req
  cases file with
  | none =>
    exact ⟨⟨400, errorBody "No file uploaded"⟩, rfl, by simp, by simp, by simp,
      fun _ => ⟨_, rfl⟩⟩
  | some file =>
    have h := hdel file rfl
    have hev := postUpload_events_of_file env file files
    rw [execCallback_of_mem env _ _ h] at hev
    cases herr : (scanResult env file files).error with
    | true =>
      refine ⟨⟨500, errorBody (jsOr (scanResult env file files).stderr "Error executing script")⟩,
        ?_, by simp, by simp, by simp [herr], fun _ => ⟨_, rfl⟩⟩
      rw [hev, herr]
      rfl
    | false =>
      rw [herr] at hev
      cases hparse : env.parse (scanResult env file files).stdout with
      | none =>
        refine ⟨⟨500, errorBody "Invalid JSON output from Python script"⟩,
          ?_, by simp, by simp, by simp [hparse], fun _ => ⟨_, rfl⟩⟩
        rw [hev]
        simp [parseAndSend, hparse, responses]
      | some v =>
        cases hsend : env.stringify v with
        | none =>
          refine ⟨⟨500, errorBody "Invalid JSON output from Python script"⟩,
            ?_, by simp, by simp, by simp [hparse, hsend], fun _ => ⟨_, rfl⟩⟩
          rw [hev]
          simp [parseAndSend, hparse, hsend, responses]
        | some body =>
          refine ⟨⟨200, body⟩, ?_, by simp, by simp, by simp [herr, hparse, hsend], by simp⟩
          rw [hev]
          simp [parseAndSend, hparse, hsend, responses]

/-! ## A failing deletion -/

/-- C9: a server started from the parent directory, where `python3` does not
find the script and exits nonzero.  The deletion fails, the exception of
`fs.unlinkSync` leaves the callback, and no response is sent; the same
analyzer outcome with a deletion that succeeds is answered with status 500. -/
theorem unlink_failure_aborts_callback :
    (postUpload (strayEnv (answers true "" "No such file or directory"))
        { file := some sampleFile } ["/srv/app/uploads/ab12"]).events =
        [.launched "python3 apk_scanner.py /srv/app/src/uploads/ab12",
          .exited true "" "No such file or directory",
          .unlink "/srv/app/src/uploads/ab12" false,
          .uncaughtException
            "ENOENT: no such file or directory, unlink \x27/srv/app/src/uploads/ab12\x27"] ∧
      responses (postUpload (strayEnv (answers true "" "No such file or directory"))
        { file := some sampleFile } ["/srv/app/uploads/ab12"]).events = [] ∧
      responses (postUpload (homeEnv (answers true "" "No such file or directory"))
        { file := some sampleFile } ["/srv/app/uploads/ab12"]).events =
        [⟨500, .obj [("error", .str "No such file or directory")]⟩] :=
  ⟨rfl, rfl, rfl⟩

/-! ## Failure before output -/

/-- C10: take any run on a request with a file part and change only what the
analyzer wrote.  If the analyzer failed, replacing its standard output by any
other text leaves the responses and the final filesystem as they were, also
when the replaced or the new text is valid JSON.  If the analyzer did not
fail, replacing its standard error by any other text leaves them as they
were. -/
theorem failure_precedes_output (env : Env) (file : UploadedFile) (files : List String)
    (other : String) :
    ((scanResult env file files).error = true →
      responses (postUpload (withStdout env other) { file := some file } files).events =
          responses (postUpload env { file := some file } files).events ∧
        (postUpload (withStdout env other) { file := some file } files).files =
          (postUpload env { file := some file } files).files) ∧
    ((scanResult env file files).error = false →
      responses (postUpload (withStderr env other) { file := some file } files).events =
          responses (postUpload env { file := some file } files).events ∧
        (postUpload (withStderr env other) { file := some file } files).files =
          (postUpload env { file := some file } files).files) := by
  constructor
  · intro herr
    simp only [responses_postUpload_of_file]
    simp only [postUpload, scanResult, apkPath, withStdout] at herr ⊢
    by_cases h : Path.join env.dirname file.path ∈
        (env.exec (scanCommand (Path.join env.dirname file.path)) files).files
    · simp [execCallback, Fs.unlinkSync, herr, h]
    · simp [execCallback, Fs.unlinkSync, h]
  · intro hok
    simp only [responses_postUpload_of_file]
    simp only [postUpload, scanResult, apkPath, withStderr] at hok ⊢
    by_cases h : Path.join env.dirname file.path ∈
        (env.exec (scanCommand (Path.join env.dirname file.path)) files).files
    · simp [execCallback, Fs.unlinkSync, hok, h, parseAndSend]
    · simp [execCallback, Fs.unlinkSync, h]

/-- C10, on two runs.  A failed analyzer with `boom` on standard error: the
response is the same whether standard output is `not json` or the valid
`{"status":"clean"}`.  An analyzer that ended without error and printed
`{"status":"clean"}`: the response is the same whether standard error is
empty or `warning`. -/
theorem failure_precedes_output_witness :
    (responses (postUpload (withStdout (homeEnv (answers true "not json" "boom")) cleanText)
        { file := some sampleFile } ["/srv/app/uploads/ab12"]).events =
        responses (postUpload (homeEnv (answers true "not json" "boom"))
          { file := some sampleFile } ["/srv/app/uploads/ab12"]).events ∧
      responses (postUpload (homeEnv (answers true "not json" "boom"))
        { file := some sampleFile } ["/srv/app/uploads/ab12"]).events =
        [⟨500, .obj [("error", .str "boom")]⟩]) ∧
    (responses (postUpload (withStderr (homeEnv (answers false cleanText "")) "warning")
        { file := some sampleFile } ["/srv/app/uploads/ab12"]).events =
        responses (postUpload (homeEnv (answers false cleanText ""))
          { file := some sampleFile } ["/srv/app/uploads/ab12"]).events ∧
      responses (postUpload (homeEnv (answers false cleanText ""))
        { file := some sampleFile } ["/srv/app/uploads/ab12"]).events =
        [⟨200, .obj [("status", .str "clean")]⟩]) :=
  ⟨⟨((failure_precedes_output (homeEnv (answers true "not json" "boom")) sampleFile
        ["/srv/app/uploads/ab12"] cleanText).1 rfl).1, rfl⟩,
    ⟨((failure_precedes_output (homeEnv (answers false cleanText "")) sampleFile
        ["/srv/app/uploads/ab12"] "warning").2 rfl).1, rfl⟩⟩

end ApkUpload
